import Mathlib

/-!
Shallow embedding of `vendor/github.com/Microsoft/hcsshim/wcow_uvm.go` and
verification of its specification.

Modelling conventions:
* Go pointer fields become `Option`; a nil-pointer dereference is a distinct
  outcome `GoResult.panics` (a Go runtime panic), separate from a returned
  `error`.
* `numCPU()` (the host logical-processor count) and the filesystem stat are
  passed as explicit parameters, since they are host queries external to the
  translated unit.
* `uint64` arithmetic is carried out in `Nat` with an explicit `% 2 ^ 64`
  where the Go computation can wrap; `int32(x)` conversions of a `uint64`
  are modelled by `toInt32`.
* The external collaborators `CopyFile`, `GrantVmAccess`, `os.MkdirAll`,
  `json.Marshal` and `createContainer` are out of scope (per the design,
  they are external collaborators); their invocations are recorded as data
  (`SandboxEffects`) and modelled as succeeding.
-/

namespace WcowUvm

/-- Outcome of a Go function: a returned value, a returned `error`, or a
runtime panic from a nil-pointer dereference. -/
inductive GoResult (α : Type) where
  | panics : GoResult α
  | error (msg : String) : GoResult α
  | ok (val : α) : GoResult α
deriving DecidableEq

/-- `specs.WindowsMemoryResources`: the memory limit in bytes (`*uint64`). -/
structure WindowsMemoryResources where
  Limit : Option Nat
deriving DecidableEq

/-- `specs.WindowsCPUResources`: CPU count, shares and maximum (all pointers;
only presence of `Shares`/`Maximum` is inspected by this file). -/
structure WindowsCPUResources where
  Count : Option Nat
  Shares : Option Nat
  Maximum : Option Nat
deriving DecidableEq

/-- `specs.WindowsResources`: only the nil-ness of `Storage` is inspected. -/
structure WindowsResources where
  Memory : Option WindowsMemoryResources
  CPU : Option WindowsCPUResources
  Storage : Option Unit
deriving DecidableEq

/-- `specs.Windows`: the Windows section of an OCI spec, restricted to the
fields read by `wcow_uvm.go` (only nil-ness of `CredentialSpec`/`Network` is
inspected). -/
structure WindowsSpec where
  LayerFolders : List String
  Resources : Option WindowsResources
  CredentialSpec : Option Unit
  Network : Option Unit
deriving DecidableEq

/-- `specs.Spec`: an OCI runtime spec, restricted to the fields read by
`wcow_uvm.go` (only nil-ness of `Root`/`Linux` and the length of `Mounts`
are inspected). -/
structure Spec where
  Hostname : String
  Root : Option Unit
  Mounts : List Unit
  Windows : Option WindowsSpec
  Linux : Option Unit
deriving DecidableEq

/-- The fields of `createOptionsExInternal` read by `createWCOWv2UVM`. -/
structure CreateOptions where
  Spec : Option Spec
  actualId : String
  actualOwner : String
  actualSchemaVersion : String
deriving DecidableEq

/-- Go `filepath.Join` on Windows, for the clean path components used in this
file: an empty first component is dropped, otherwise the components are
joined with a single backslash. -/
def pathJoin (p q : String) : String :=
  if p = "" then q else p ++ "\\" ++ q

/-- Go `int32(x)` applied to a `uint64` value: reduce modulo `2 ^ 32` and
reinterpret the result as a signed 32-bit integer. -/
def toInt32 (n : Nat) : Int :=
  if n % 2 ^ 32 < 2 ^ 31 then ((n % 2 ^ 32 : Nat) : Int)
  else ((n % 2 ^ 32 : Nat) : Int) - 2 ^ 32

/-- CPU-count derivation shared by both resource paths (lines 49-61 and
168-178): start from the default 2, force 1 when the host has exactly one
logical processor, then let an explicitly present `Resources.CPU.Count`
override the result. -/
def uvmCPUCountOf (numCPU : Nat) (res : Option WindowsResources) : Nat :=
  let base := if numCPU = 1 then 1 else 2
  match res with
  | none => base
  | some r =>
    match r.CPU with
    | none => base
    | some c =>
      match c.Count with
      | none => base
      | some n => n

/-- Memory (in MB, before headroom) read by `UVMResourcesFromContainerSpec`
(lines 50 and 58-65): the default is 512; when `Resources` is present the
code reads `Resources.Memory.Limit` with no nil check of `Memory` (line 62),
a nil-pointer dereference when the `Memory` sub-block is absent. -/
def uvmMemoryMBOf (res : Option WindowsResources) : GoResult Nat :=
  match res with
  | none => .ok 512
  | some r =>
    match r.Memory with
    | none => .panics
    | some m =>
      match m.Limit with
      | none => .ok 512
      | some l => .ok (l / 1024 / 1024)

/-- Lines 69-71: round a MB quantity up to the next multiple of 512. -/
def roundUpTo512 (n : Nat) : Nat :=
  if n % 512 > 0 then n + (512 - n % 512) else n

/-- Shallow embedding of `UVMResourcesFromContainerSpec` (lines 39-78).
The first Go statement, `if spec == nil && spec.Linux != nil`, dereferences
the nil spec when `spec == nil` holds (the `&&` short-circuits only when the
left operand is false), so a nil spec panics; for a non-nil spec that guard
is false and no LCOW rejection ever fires. -/
def UVMResourcesFromContainerSpec (numCPU : Nat) (spec : Option Spec) :
    GoResult WindowsResources :=
  match spec with
  | none => .panics
  | some s =>
    match s.Windows with
    | none => .error "invalid spec"
    | some w =>
      let cpu := uvmCPUCountOf numCPU w.Resources
      match uvmMemoryMBOf w.Resources with
      | .panics => .panics
      | .error e => .error e
      | .ok memMB0 =>
        let memMB := roundUpTo512 (memMB0 + 256)
        let memBytes := (memMB * 1024 * 1024) % 2 ^ 64
        .ok { Memory := some { Limit := some memBytes },
              CPU := some { Count := some cpu, Shares := none, Maximum := none },
              Storage := none }

/-- Result of an `os.Stat` call: success, an error satisfying
`os.IsNotExist`, or any other error. -/
inductive Stat where
  | found : Stat
  | notExist : Stat
  | otherError (msg : String) : Stat
deriving DecidableEq

/-- The scan loop of lines 88-98: return the first folder whose `UtilityVM`
subdirectory stats successfully, skip folders whose stat fails with
not-exist, and abort with any other stat error. -/
def locateLoop (fs : String → Stat) : List String → Except String (Option String)
  | [] => .ok none
  | f :: rest =>
    match fs (pathJoin f "UtilityVM") with
    | .found => .ok (some f)
    | .notExist => locateLoop fs rest
    | .otherError e => .error e

/-- Line 100: the not-found error message. -/
def notFoundMsg : String := "utility VM folder could not be found in layers"

/-- Shallow embedding of `LocateWCOWUVMFolderFromLayerFolders` (lines
85-104), the filesystem stat modelled as a function from path to `Stat`.
The Go code holds the found folder in a variable initialised to `""` and
reports not-found whenever that variable is still `""` after the loop, so a
found folder equal to the empty string is also reported as not-found. -/
def LocateWCOWUVMFolderFromLayerFolders (fs : String → Stat)
    (layerFolders : List String) : Except String String :=
  match locateLoop fs layerFolders with
  | .error e => .error e
  | .ok none => .error notFoundMsg
  | .ok (some f) => if f = "" then .error notFoundMsg else .ok f

/-- Line 109: the prefix of every validation error message. -/
def iocis : String := "invalid OCI spec:"

/-- Line 111 message. -/
def msgLayerFolders : String :=
  iocis ++ " Windows.LayerFolders must have length of at least 2 for a hosting system"

/-- Line 114 message. -/
def msgHostname : String := iocis ++ " Hostname cannot be set for a hosting system"

/-- Line 117 message. -/
def msgCPUShares : String :=
  iocis ++ " Windows.Resources.CPU.Shares must not be set for a hosting system"

/-- Line 120 message. -/
def msgCPUMaximum : String :=
  iocis ++ " Windows.Resources.CPU.Maximum must not be set for a hosting system"

/-- Line 123 message. -/
def msgRoot : String := iocis ++ " Root must not be set for a hosting system"

/-- Line 126 message. -/
def msgStorage : String :=
  iocis ++ " Windows.Resources.Storage must not be set for a hosting system"

/-- Line 129 message. -/
def msgCredentialSpec : String :=
  iocis ++ " Windows.CredentialSpec must not be set for a hosting system"

/-- Line 132 message. -/
def msgNetwork : String := iocis ++ " Windows.Network must not be set for a hosting system"

/-- Line 135 message. -/
def msgMounts : String := iocis ++ " Mounts must not be set for a hosting system"

/-- Line 116: `Resources != nil && Resources.CPU != nil && CPU.Shares != nil`. -/
def hasCPUShares (w : WindowsSpec) : Bool :=
  match w.Resources with
  | none => false
  | some r =>
    match r.CPU with
    | none => false
    | some c => c.Shares.isSome

/-- Line 119: `Resources != nil && Resources.CPU != nil && CPU.Maximum != nil`. -/
def hasCPUMaximum (w : WindowsSpec) : Bool :=
  match w.Resources with
  | none => false
  | some r =>
    match r.CPU with
    | none => false
    | some c => c.Maximum.isSome

/-- Line 125: `Resources != nil && Resources.Storage != nil`. -/
def hasStorage (w : WindowsSpec) : Bool :=
  match w.Resources with
  | none => false
  | some r => r.Storage.isSome

/-- Lines 109-136: the hosting-system spec validation at the top of
`createWCOWv2UVM`. The first check reads `coi.Spec.Windows.LayerFolders`
with no nil check of either pointer, so an absent `Spec` or absent `Windows`
section is a nil-pointer dereference. -/
def specValidate (spec : Option Spec) : GoResult Unit :=
  match spec with
  | none => .panics
  | some s =>
    match s.Windows with
    | none => .panics
    | some w =>
      if w.LayerFolders.length < 2 then .error msgLayerFolders
      else if s.Hostname.length > 0 then .error msgHostname
      else if hasCPUShares w then .error msgCPUShares
      else if hasCPUMaximum w then .error msgCPUMaximum
      else if s.Root.isSome then .error msgRoot
      else if hasStorage w then .error msgStorage
      else if w.CredentialSpec.isSome then .error msgCredentialSpec
      else if w.Network.isSome then .error msgNetwork
      else if s.Mounts.length ≠ 0 then .error msgMounts
      else .ok ()

/-- Lines 167 and 172-175: VM-launch memory in MB. The default is 1024; an
explicitly present limit (guarded by nil checks of both `Memory` and
`Limit`) is converted bytes to MB by integer division and then to `int32`. -/
def launchMemory (res : Option WindowsResources) : Int :=
  match res with
  | none => 1024
  | some r =>
    match r.Memory with
    | none => 1024
    | some m =>
      match m.Limit with
      | none => 1024
      | some l => toInt32 (l / 1024 / 1024)

/-- Lines 168-171 and 176-178: VM-launch processor count as an `int32`:
default 2, forced to 1 on a single-logical-processor host, overridden by an
explicitly present `Resources.CPU.Count`. -/
def launchProcessors (numCPU : Nat) (res : Option WindowsResources) : Int :=
  let base : Int := if numCPU = 1 then 1 else 2
  match res with
  | none => base
  | some r =>
    match r.CPU with
    | none => base
    | some c =>
      match c.Count with
      | none => base
      | some n => toInt32 n

/-- `hcsschemav2.VirtualMachinesResourcesUefiBootEntryV2`. -/
structure VirtualMachinesResourcesUefiBootEntryV2 where
  DevicePath : String
  DiskNumber : Nat
  UefiDevice : String
deriving DecidableEq

/-- `hcsschemav2.VirtualMachinesResourcesUefiV2`. -/
structure VirtualMachinesResourcesUefiV2 where
  BootThis : Option VirtualMachinesResourcesUefiBootEntryV2
deriving DecidableEq

/-- `hcsschemav2.VirtualMachinesResourcesChipsetV2`. -/
structure VirtualMachinesResourcesChipsetV2 where
  UEFI : Option VirtualMachinesResourcesUefiV2
deriving DecidableEq

/-- `hcsschemav2.VirtualMachinesResourcesComputeMemoryV2`. -/
structure VirtualMachinesResourcesComputeMemoryV2 where
  Backing : String
  Startup : Int
  DirectFileMappingMB : Int
deriving DecidableEq

/-- `hcsschemav2.VirtualMachinesResourcesComputeProcessorV2`. -/
structure VirtualMachinesResourcesComputeProcessorV2 where
  Count : Int
deriving DecidableEq

/-- `hcsschemav2.VirtualMachinesResourcesComputeTopologyV2`. -/
structure VirtualMachinesResourcesComputeTopologyV2 where
  Memory : Option VirtualMachinesResourcesComputeMemoryV2
  Processor : Option VirtualMachinesResourcesComputeProcessorV2
deriving DecidableEq

/-- `hcsschemav2.VirtualMachinesResourcesStorageAttachmentV2`; the Go field
`Type` is rendered `AttachmentType` because `Type` is reserved in Lean. -/
structure VirtualMachinesResourcesStorageAttachmentV2 where
  Path : String
  AttachmentType : String
deriving DecidableEq

/-- The five VSMB share flag constants combined at line 208. The numeric
values of these bit flags live in the `schema/v2` package, outside the
translated file, so the combination is modelled as the list of named flags
rather than as a bitwise or. -/
inductive VsmbFlag where
  | readOnly : VsmbFlag
  | pseudoOplocks : VsmbFlag
  | takeBackupPrivilege : VsmbFlag
  | cacheIo : VsmbFlag
  | shareRead : VsmbFlag
deriving DecidableEq

/-- `hcsschemav2.VirtualMachinesResourcesStorageVSmbShareV2`. -/
structure VirtualMachinesResourcesStorageVSmbShareV2 where
  Flags : List VsmbFlag
  Name : String
  Path : String
deriving DecidableEq

/-- `hcsschemav2.VirtualMachinesResourcesStorageScsiV2`; the Go
`map[string]` with its single key is modelled as an association list. -/
structure VirtualMachinesResourcesStorageScsiV2 where
  Attachments : List (String × VirtualMachinesResourcesStorageAttachmentV2)
deriving DecidableEq

/-- `hcsschemav2.VirtualMachinesResourcesGuestInterfaceV2`. -/
structure VirtualMachinesResourcesGuestInterfaceV2 where
  ConnectToBridge : Bool
deriving DecidableEq

/-- `hcsschemav2.VirtualMachinesDevicesV2`, restricted to the fields set at
lines 204-213. -/
structure VirtualMachinesDevicesV2 where
  SCSI : List (String × VirtualMachinesResourcesStorageScsiV2)
  VirtualSMBShares : List VirtualMachinesResourcesStorageVSmbShareV2
  GuestInterface : Option VirtualMachinesResourcesGuestInterfaceV2
deriving DecidableEq

/-- `hcsschemav2.VirtualMachineV2`, restricted to the fields set at lines
183-214. -/
structure VirtualMachineV2 where
  Chipset : Option VirtualMachinesResourcesChipsetV2
  ComputeTopology : Option VirtualMachinesResourcesComputeTopologyV2
  Devices : Option VirtualMachinesDevicesV2
deriving DecidableEq

/-- `hcsschemav2.ComputeSystemV2`, restricted to the fields set at lines
180-215 (the schema version is kept opaque as a string). -/
structure ComputeSystemV2 where
  Owner : String
  SchemaVersion : String
  VirtualMachine : Option VirtualMachineV2
deriving DecidableEq

/-- Filesystem side effects of `createWCOWv2UVM`, recorded as data: the
folder passed to `os.MkdirAll` when the sandbox folder did not exist, and
the arguments of the `CopyFile`/`GrantVmAccess` calls made by
`CreateWCOWUVMSandbox`. -/
structure SandboxEffects where
  createdFolder : Option String
  copiedFrom : String
  copiedTo : String
  grantedTo : String
deriving DecidableEq

/-- `CreateWCOWUVMSandbox` (lines 21-32): copies
`<imagePath>\UtilityVM\SystemTemplate.vhdx` to
`<destDirectory>\sandbox.vhdx` and grants the VM id access to the target.
The external `CopyFile`/`GrantVmAccess` collaborators are modelled as
succeeding; the call is recorded as (source, target, vmID). -/
def CreateWCOWUVMSandbox (imagePath destDirectory vmID : String) :
    String × String × String :=
  (pathJoin imagePath "UtilityVM\\SystemTemplate.vhdx",
   pathJoin destDirectory "sandbox.vhdx", vmID)

/-- Shallow embedding of `createWCOWv2UVM` (lines 106-229) up to the
hand-off to the external creation API: validation, boot-layer resolution,
sandbox folder and disk preparation (side effects recorded), VM-launch
resource derivation and descriptor assembly. `json.Marshal` and
`createContainer` are external collaborators modelled as succeeding, so
`.ok` carries the assembled descriptor together with the recorded
filesystem effects. -/
def createWCOWv2UVM (numCPU : Nat) (fs : String → Stat) (coi : CreateOptions) :
    GoResult (ComputeSystemV2 × SandboxEffects) :=
  match specValidate coi.Spec with
  | .panics => .panics
  | .error e => .error e
  | .ok _ =>
    match coi.Spec with
    | none => .panics
    | some s =>
      match s.Windows with
      | none => .panics
      | some w =>
        match LocateWCOWUVMFolderFromLayerFolders fs w.LayerFolders with
        | .error e =>
          .error ("failed to locate utility VM folder from layer folders: " ++ e)
        | .ok uvmFolder =>
          let sandboxFolder := w.LayerFolders.getLastD ""
          let createdFolder :=
            if fs sandboxFolder = .notExist then some sandboxFolder else none
          let sandboxCall := CreateWCOWUVMSandbox uvmFolder sandboxFolder coi.actualId
          .ok ({ Owner := coi.actualOwner,
                 SchemaVersion := coi.actualSchemaVersion,
                 VirtualMachine := some
                   { Chipset := some
                       { UEFI := some
                           { BootThis := some
                               { DevicePath := "\\EFI\\Microsoft\\Boot\\bootmgfw.efi",
                                 DiskNumber := 0,
                                 UefiDevice := "VMBFS" } } },
                     ComputeTopology := some
                       { Memory := some
                           { Backing := "Virtual",
                             Startup := launchMemory w.Resources,
                             DirectFileMappingMB := 1024 },
                         Processor := some
                           { Count := launchProcessors numCPU w.Resources } },
                     Devices := some
                       { SCSI :=
                           [("0", { Attachments :=
                               [("0", { Path := pathJoin sandboxFolder "sandbox.vhdx",
                                        AttachmentType := "VirtualDisk" })] })],
                         VirtualSMBShares :=
                           [{ Flags := [.readOnly, .pseudoOplocks,
                                        .takeBackupPrivilege, .cacheIo, .shareRead],
                              Name := "os",
                              Path := pathJoin uvmFolder "UtilityVM\\Files" }],
                         GuestInterface := some { ConnectToBridge := true } } } },
               { createdFolder := createdFolder,
                 copiedFrom := sandboxCall.1,
                 copiedTo := sandboxCall.2.1,
                 grantedTo := sandboxCall.2.2 })

/-! ## Shared helpers and concrete test fixtures -/

instance {e a : Type} [DecidableEq e] [DecidableEq a] : DecidableEq (Except e a) :=
  fun x y =>
    match x, y with
    | .error u, .error v =>
      if h : u = v then isTrue (by rw [h]) else isFalse (by intro hc; cases hc; exact h rfl)
    | .error _, .ok _ => isFalse (by intro hc; cases hc)
    | .ok _, .error _ => isFalse (by intro hc; cases hc)
    | .ok u, .ok v =>
      if h : u = v then isTrue (by rw [h]) else isFalse (by intro hc; cases hc; exact h rfl)

/-- A Go function call "returns a result" when it neither panics (a returned
value and a returned `error` both count as results). -/
def returnsResult {α : Type} (r : GoResult α) : Prop :=
  r ≠ GoResult.panics

/-- The spec's optional CPU count, reached through the two nil-guarded
pointers `Resources.CPU` and `CPU.Count`. -/
def specCPUCount (res : Option WindowsResources) : Option Nat :=
  (res.bind (fun r => r.CPU)).bind (fun c => c.Count)

/-- The spec's optional memory limit in bytes, reached through the two
nil-guarded pointers `Resources.Memory` and `Memory.Limit`. -/
def specMemLimit (res : Option WindowsResources) : Option Nat :=
  (res.bind (fun r => r.Memory)).bind (fun m => m.Limit)

lemma string_length_eq_zero (s : String) : s.length = 0 ↔ s = "" := by
  cases s with
  | mk data =>
    cases data <;> simp [String.length]
    intro h
    exact absurd (congrArg String.data h) (by simp)

lemma toInt32_of_lt {n : Nat} (h : n < 2 ^ 31) : toInt32 n = n := by
  unfold toInt32
  rw [Nat.mod_eq_of_lt (h.trans (by norm_num))]
  rw [if_pos h]

lemma uvmMemoryMBOf_ne_error (res : Option WindowsResources) (e : String) :
    uvmMemoryMBOf res ≠ .error e := by
  rcases res with _ | r
  · simp [uvmMemoryMBOf]
  · rcases hM : r.Memory with _ | m
    · simp [uvmMemoryMBOf, hM]
    · rcases hL : m.Limit with _ | l <;> simp [uvmMemoryMBOf, hM, hL]

/-- A spec whose Windows resource section carries the given memory limit and
nothing else. -/
def specWithMemLimit (lim : Option Nat) : Spec where
  Hostname := ""
  Root := none
  Mounts := []
  Windows := some
    { LayerFolders := []
      Resources := some { Memory := some { Limit := lim }, CPU := none, Storage := none }
      CredentialSpec := none
      Network := none }
  Linux := none

/-- A concrete filesystem: folder `B` carries the `UtilityVM` marker, folder
`E` fails to stat with a permission error, everything else does not exist. -/
def fsW : String → Stat := fun p =>
  if p = "B\\UtilityVM" then .found
  else if p = "E\\UtilityVM" then .otherError "access denied"
  else .notExist

/-- The Windows section of a well-formed hosting-system spec: three layer
folders, no resources, nothing forbidden set. -/
def goodWindows : WindowsSpec where
  LayerFolders := ["A", "B", "S"]
  Resources := none
  CredentialSpec := none
  Network := none

/-- A well-formed hosting-system spec accepted by the validation. -/
def goodSpec : Spec where
  Hostname := ""
  Root := none
  Mounts := []
  Windows := some goodWindows
  Linux := none

/-- Creation options wrapping `goodSpec`. -/
def goodCoi : CreateOptions where
  Spec := some goodSpec
  actualId := "vm1"
  actualOwner := "own"
  actualSchemaVersion := "2.0"

/-! ## Layer resolution (claims C3 and C8) -/

lemma locateLoop_append_of_notExist (fs : String → Stat) (pre rest : List String)
    (h : ∀ g ∈ pre, fs (pathJoin g "UtilityVM") = .notExist) :
    locateLoop fs (pre ++ rest) = locateLoop fs rest := by
  induction pre with
  | nil => simp
  | cons g gs ih =>
    have hg := h g (by simp)
    simp only [List.cons_append, locateLoop, hg]
    exact ih (fun x hx => h x (by simp [hx]))

/-- C3: scanning in input order, the first folder whose `UtilityVM` marker
subdirectory exists is returned, whatever comes after it in the list; when
every folder's marker is missing, the scan fails with the not-found error.
The folders are required to be nonempty strings, since the Go code uses the
empty string as its internal not-found sentinel. -/
theorem locate_returns_first_match (fs : String → Stat) :
    (∀ pre f post, (∀ g ∈ pre, fs (pathJoin g "UtilityVM") = .notExist) →
      fs (pathJoin f "UtilityVM") = .found → f ≠ "" →
      LocateWCOWUVMFolderFromLayerFolders fs (pre ++ f :: post) = .ok f) ∧
    (∀ folders, (∀ g ∈ folders, fs (pathJoin g "UtilityVM") = .notExist) →
      LocateWCOWUVMFolderFromLayerFolders fs folders = .error notFoundMsg) := by
  constructor
  · intro pre f post hpre hf hne
    unfold LocateWCOWUVMFolderFromLayerFolders
    rw [locateLoop_append_of_notExist fs pre (f :: post) hpre]
    simp only [locateLoop, hf]
    rw [if_neg hne]
  · intro folders hall
    unfold LocateWCOWUVMFolderFromLayerFolders
    have : locateLoop fs folders = locateLoop fs [] := by
      have := locateLoop_append_of_notExist fs folders [] hall
      simpa using this
    rw [this]
    rfl

/-- C3 witness: on the concrete filesystem `fsW`, the folder list
`[A, B, C]` resolves to `B` (the first and only marker-carrying folder), and
`[A, C]` fails with the not-found error. -/
theorem locate_returns_first_match_witness :
    LocateWCOWUVMFolderFromLayerFolders fsW ["A", "B", "C"] = .ok "B" ∧
    LocateWCOWUVMFolderFromLayerFolders fsW ["A", "C"] = .error notFoundMsg :=
  ⟨(locate_returns_first_match fsW).1 ["A"] "B" ["C"] (by decide) (by decide) (by decide),
   (locate_returns_first_match fsW).2 ["A", "C"] (by decide)⟩

/-- C8: when a folder's marker stat fails with an error other than
not-exist, the scan returns exactly that error, for every possible tail of
the list — no later folder can influence the outcome. -/
theorem locate_aborts_on_stat_error (fs : String → Stat) (pre : List String)
    (f : String) (post : List String) (e : String)
    (hpre : ∀ g ∈ pre, fs (pathJoin g "UtilityVM") = .notExist)
    (hf : fs (pathJoin f "UtilityVM") = .otherError e) :
    LocateWCOWUVMFolderFromLayerFolders fs (pre ++ f :: post) = .error e := by
  unfold LocateWCOWUVMFolderFromLayerFolders
  rw [locateLoop_append_of_notExist fs pre (f :: post) hpre]
  simp [locateLoop, hf]

/-- C8 witness: on `fsW`, scanning `[A, E, B]` aborts at `E` with the
permission error, even though the later folder `B` carries the marker. -/
theorem locate_aborts_on_stat_error_witness :
    LocateWCOWUVMFolderFromLayerFolders fsW ["A", "E", "B"] = .error "access denied" :=
  locate_aborts_on_stat_error fsW ["A"] "E" ["B"] "access denied" (by decide) (by decide)

/-! ## Capacity-planning resource derivation (claims C1, C5, C7, C10) -/

/-- C1 counterexample: the claim predicts that an absent memory limit yields
512 MB (a default of 0 MB plus 256, rounded up); the code's default is 512
MB, so a spec with a present resource section and no memory limit yields
1024 MB, not 512 MB. -/
theorem capacity_memory_absent_limit_counterexample :
    UVMResourcesFromContainerSpec 4 (some (specWithMemLimit none)) =
      .ok { Memory := some { Limit := some 1073741824 },
            CPU := some { Count := some 2, Shares := none, Maximum := none },
            Storage := none } ∧
    (1073741824 : Nat) ≠ 536870912 := by
  constructor
  · rfl
  · decide

/-- C1 amended: for a spec with Windows section, resource section and memory
sub-block present, the capacity-planning memory is the limit converted
bytes to MB when present, else the default 512 MB (not 0); plus 256 MB;
rounded up to the next 512 MB multiple; re-expressed in bytes (reduced
modulo `2 ^ 64`, as the Go `uint64` product wraps).  The four concrete
instances: explicit 0 bytes yields 512 MB, 768 MB yields 1024 MB, 1 MB
yields 512 MB, and an absent limit yields 1024 MB. -/
theorem capacity_memory_amended (numCPU : Nat) (s : Spec) (w : WindowsSpec)
    (r : WindowsResources) (m : WindowsMemoryResources)
    (hw : s.Windows = some w) (hr : w.Resources = some r) (hm : r.Memory = some m) :
    UVMResourcesFromContainerSpec numCPU (some s) =
      .ok { Memory := some { Limit := some ((roundUpTo512 ((match m.Limit with | some l => l / 1024 / 1024 | none => 512) + 256) * 1024 * 1024) % 2 ^ 64) },
            CPU := some { Count := some (uvmCPUCountOf numCPU w.Resources), Shares := none, Maximum := none },
            Storage := none } ∧
    UVMResourcesFromContainerSpec 4 (some (specWithMemLimit (some 0))) =
      .ok { Memory := some { Limit := some 536870912 },
            CPU := some { Count := some 2, Shares := none, Maximum := none },
            Storage := none } ∧
    UVMResourcesFromContainerSpec 4 (some (specWithMemLimit (some 805306368))) =
      .ok { Memory := some { Limit := some 1073741824 },
            CPU := some { Count := some 2, Shares := none, Maximum := none },
            Storage := none } ∧
    UVMResourcesFromContainerSpec 4 (some (specWithMemLimit (some 1048576))) =
      .ok { Memory := some { Limit := some 536870912 },
            CPU := some { Count := some 2, Shares := none, Maximum := none },
            Storage := none } ∧
    UVMResourcesFromContainerSpec 4 (some (specWithMemLimit none)) =
      .ok { Memory := some { Limit := some 1073741824 },
            CPU := some { Count := some 2, Shares := none, Maximum := none },
            Storage := none } := by
  refine ⟨?_, by rfl, by rfl, by rfl, by rfl⟩
  simp only [UVMResourcesFromContainerSpec, uvmMemoryMBOf, hw, hr, hm]
  rcases hL : m.Limit with _ | l <;> simp [hL]

/-- C1 amended witness: the amended formula applied at the concrete spec
with a present memory sub-block and no limit yields 1024 MB. -/
theorem capacity_memory_amended_witness :
    UVMResourcesFromContainerSpec 4 (some (specWithMemLimit none)) =
      .ok { Memory := some { Limit := some 1073741824 },
            CPU := some { Count := some 2, Shares := none, Maximum := none },
            Storage := none } := by
  have h := capacity_memory_amended 4 (specWithMemLimit none) _ _ _ rfl rfl rfl
  rw [h.1]
  decide

/-- C5: in both derivation paths the processor count defaults to 2, is
forced to 1 on a single-logical-processor host, and an explicitly present
`Resources.CPU.Count` overrides both — the overridden result does not
depend on the host processor count. `uvmCPUCountOf` is the CPU derivation
of `UVMResourcesFromContainerSpec` (lines 49-61) and `launchProcessors`
that of `createWCOWv2UVM` (lines 168-178). -/
theorem cpu_count_default_force_override (numCPU : Nat) (res : Option WindowsResources) :
    (specCPUCount res = none →
      uvmCPUCountOf numCPU res = (if numCPU = 1 then 1 else 2) ∧
      launchProcessors numCPU res = (if numCPU = 1 then 1 else 2)) ∧
    (∀ n, specCPUCount res = some n →
      uvmCPUCountOf numCPU res = n ∧ launchProcessors numCPU res = toInt32 n) := by
  rcases res with _ | r
  · exact ⟨fun _ => ⟨rfl, rfl⟩, fun n hn => by simp [specCPUCount] at hn⟩
  · rcases hc : r.CPU with _ | c
    · constructor
      · intro _
        constructor <;> simp [uvmCPUCountOf, launchProcessors, hc]
      · intro n hn
        simp [specCPUCount, hc] at hn
    · rcases hn : c.Count with _ | k
      · constructor
        · intro _
          constructor <;> simp [uvmCPUCountOf, launchProcessors, hc, hn]
        · intro n h
          simp [specCPUCount, hc, hn] at h
      · constructor
        · intro h
          simp [specCPUCount, hc, hn] at h
        · intro n h
          simp [specCPUCount, hc, hn] at h
          subst h
          constructor <;> simp [uvmCPUCountOf, launchProcessors, hc, hn]

/-- C5 witness: on a single-logical-processor host, an explicit CPU count of
4 still wins in both paths. -/
theorem cpu_count_default_force_override_witness :
    uvmCPUCountOf 1 (some { Memory := none, CPU := some { Count := some 4, Shares := none, Maximum := none }, Storage := none }) = 4 ∧
    launchProcessors 1 (some { Memory := none, CPU := some { Count := some 4, Shares := none, Maximum := none }, Storage := none }) = toInt32 4 :=
  (cpu_count_default_force_override 1
    (some { Memory := none, CPU := some { Count := some 4, Shares := none, Maximum := none }, Storage := none })).2 4 rfl

/-- A spec that indicates a Linux workload while also carrying a Windows
section. -/
def linuxWorkloadSpec : Spec where
  Hostname := ""
  Root := none
  Mounts := []
  Windows := some
    { LayerFolders := []
      Resources := none
      CredentialSpec := none
      Network := none }
  Linux := some ()

/-- C7: evaluation of the code at the claim's inputs. A nil spec panics at
`spec.Linux` inside `spec == nil && spec.Linux != nil` instead of returning
the "invalid spec" error; a spec with both a Linux section and a Windows
section is accepted and translated instead of being rejected as LCOW; and
the LCOW rejection the code's own error message announces is unreachable
for every input. -/
theorem lcow_rejection_unreachable :
    UVMResourcesFromContainerSpec 4 none = .panics ∧
    UVMResourcesFromContainerSpec 4 (some linuxWorkloadSpec) =
      .ok { Memory := some { Limit := some 1073741824 },
            CPU := some { Count := some 2, Shares := none, Maximum := none },
            Storage := none } ∧
    (∀ (numCPU : Nat) (spec : Option Spec),
      UVMResourcesFromContainerSpec numCPU spec ≠
        .error "UVMResourcesFromContainerSpec not supported for LCOW yet") := by
  refine ⟨rfl, rfl, ?_⟩
  intro numCPU spec h
  rcases spec with _ | s
  · simp [UVMResourcesFromContainerSpec] at h
  · rcases hW : s.Windows with _ | w
    · simp only [UVMResourcesFromContainerSpec, hW] at h
      exact absurd h (by decide)
    · simp only [UVMResourcesFromContainerSpec, hW] at h
      rcases hM : uvmMemoryMBOf w.Resources with _ | e | mb
      · simp [hM] at h
      · exact uvmMemoryMBOf_ne_error w.Resources e hM
      · simp [hM] at h

/-- C7 witness: the unreachability conjunct applied at a concrete Linux
workload input. -/
theorem lcow_rejection_unreachable_witness :
    UVMResourcesFromContainerSpec 4 (some linuxWorkloadSpec) ≠
      .error "UVMResourcesFromContainerSpec not supported for LCOW yet" :=
  lcow_rejection_unreachable.2.2 4 (some linuxWorkloadSpec)

/-- C10: when the Windows resource section is present but its `Memory`
sub-block is absent, the read `Resources.Memory.Limit` at line 62 is an
unguarded nil dereference, so `UVMResourcesFromContainerSpec` panics; the
VM-launch derivation (line 173) checks `Memory != nil` first and falls back
to the 1024 MB default on the same input. -/
theorem capacity_memory_nil_deref (numCPU : Nat) (s : Spec) (w : WindowsSpec)
    (r : WindowsResources) (hw : s.Windows = some w) (hr : w.Resources = some r)
    (hm : r.Memory = none) :
    UVMResourcesFromContainerSpec numCPU (some s) = .panics ∧
    launchMemory (some r) = 1024 := by
  constructor
  · simp [UVMResourcesFromContainerSpec, uvmMemoryMBOf, hw, hr, hm]
  · simp [launchMemory, hm]

/-- A spec whose Windows resource section is present but has no `Memory`
sub-block. -/
def noMemoryBlockSpec : Spec where
  Hostname := ""
  Root := none
  Mounts := []
  Windows := some
    { LayerFolders := []
      Resources := some { Memory := none, CPU := none, Storage := none }
      CredentialSpec := none
      Network := none }
  Linux := none

/-- C10 witness: the dereference panic and the launch-path default at a
concrete spec whose resource section has no `Memory` sub-block. -/
theorem capacity_memory_nil_deref_witness :
    UVMResourcesFromContainerSpec 4 (some noMemoryBlockSpec) = .panics ∧
    launchMemory (some { Memory := none, CPU := none, Storage := none }) = 1024 :=
  capacity_memory_nil_deref 4 noMemoryBlockSpec _ _ rfl rfl rfl

/-! ## VM-launch memory derivation (claim C4) -/

/-- C4 counterexample: the claim states the explicit limit is converted as
plain integer division bytes to MB, but the Go code truncates the quotient
to `int32`; at a limit of `2 ^ 52` bytes the quotient is `2 ^ 32` MB while
the code produces 0 MB. -/
theorem launch_memory_division_counterexample :
    launchMemory (some { Memory := some { Limit := some (2 ^ 52) },
                         CPU := none, Storage := none }) = 0 ∧
    2 ^ 52 / 1024 / 1024 = 2 ^ 32 ∧ (0 : Int) ≠ 2 ^ 32 := by
  refine ⟨rfl, by norm_num, by decide⟩

/-- C4 amended: the VM-launch memory defaults to 1024 MB whenever no
explicit limit is reachable (absent `Resources`, `Memory` or `Limit`); an
explicit limit is converted as bytes divided by `1024 * 1024` truncated to
a signed 32-bit integer, which coincides with the plain integer quotient
whenever that quotient is below `2 ^ 31`; in particular an explicit limit
of 2147483648 bytes yields exactly 2048 MB. -/
theorem launch_memory_amended (res : Option WindowsResources) :
    (specMemLimit res = none → launchMemory res = 1024) ∧
    (∀ l, specMemLimit res = some l →
      launchMemory res = toInt32 (l / 1024 / 1024) ∧
      (l / 1024 / 1024 < 2 ^ 31 → launchMemory res = ((l / 1024 / 1024 : Nat) : Int))) ∧
    launchMemory (some { Memory := some { Limit := some 2147483648 },
                         CPU := none, Storage := none }) = 2048 := by
  refine ⟨?_, ?_, by rfl⟩
  · intro h
    rcases res with _ | r
    · rfl
    · rcases hM : r.Memory with _ | m
      · simp [launchMemory, hM]
      · rcases hL : m.Limit with _ | l
        · simp [launchMemory, hM, hL]
        · simp [specMemLimit, hM, hL] at h
  · intro l h
    rcases res with _ | r
    · simp [specMemLimit] at h
    · rcases hM : r.Memory with _ | m
      · simp [specMemLimit, hM] at h
      · rcases hL : m.Limit with _ | k
        · simp [specMemLimit, hM, hL] at h
        · simp [specMemLimit, hM, hL] at h
          subst h
          refine ⟨by simp [launchMemory, hM, hL], fun hlt => ?_⟩
          simp [launchMemory, hM, hL, toInt32_of_lt hlt]

/-- C4 amended witness: the explicit 2 GB limit evaluated through the
amended conversion rule. -/
theorem launch_memory_amended_witness :
    launchMemory (some { Memory := some { Limit := some 2147483648 },
                         CPU := none, Storage := none }) =
      ((2147483648 / 1024 / 1024 : Nat) : Int) :=
  ((launch_memory_amended (some { Memory := some { Limit := some 2147483648 },
                                  CPU := none, Storage := none })).2.1
    2147483648 rfl).2 (by norm_num)

/-! ## Hosting-system spec validation (claims C2 and C9) -/

lemma string_length_pos_iff (s : String) : 0 < s.length ↔ s ≠ "" := by
  rw [Nat.pos_iff_ne_zero]
  exact not_congr (string_length_eq_zero s)

/-- C2: for a spec whose Windows section is present, the validation accepts
exactly when all nine constraints hold; the checks fire in program order,
each rejection carries its own message; the nine messages are pairwise
distinct and each names the offending field. -/
theorem spec_validation_characterisation (s : Spec) (w : WindowsSpec)
    (hw : s.Windows = some w) :
    (specValidate (some s) = .ok () ↔
      (2 ≤ w.LayerFolders.length ∧ s.Hostname = "" ∧ hasCPUShares w = false ∧
       hasCPUMaximum w = false ∧ s.Root = none ∧ hasStorage w = false ∧
       w.CredentialSpec = none ∧ w.Network = none ∧ s.Mounts = [])) ∧
    (w.LayerFolders.length < 2 → specValidate (some s) = .error msgLayerFolders) ∧
    (2 ≤ w.LayerFolders.length → s.Hostname ≠ "" →
      specValidate (some s) = .error msgHostname) ∧
    (2 ≤ w.LayerFolders.length → s.Hostname = "" → hasCPUShares w = true →
      specValidate (some s) = .error msgCPUShares) ∧
    (2 ≤ w.LayerFolders.length → s.Hostname = "" → hasCPUShares w = false →
      hasCPUMaximum w = true → specValidate (some s) = .error msgCPUMaximum) ∧
    (2 ≤ w.LayerFolders.length → s.Hostname = "" → hasCPUShares w = false →
      hasCPUMaximum w = false → s.Root.isSome = true →
      specValidate (some s) = .error msgRoot) ∧
    (2 ≤ w.LayerFolders.length → s.Hostname = "" → hasCPUShares w = false →
      hasCPUMaximum w = false → s.Root = none → hasStorage w = true →
      specValidate (some s) = .error msgStorage) ∧
    (2 ≤ w.LayerFolders.length → s.Hostname = "" → hasCPUShares w = false →
      hasCPUMaximum w = false → s.Root = none → hasStorage w = false →
      w.CredentialSpec.isSome = true → specValidate (some s) = .error msgCredentialSpec) ∧
    (2 ≤ w.LayerFolders.length → s.Hostname = "" → hasCPUShares w = false →
      hasCPUMaximum w = false → s.Root = none → hasStorage w = false →
      w.CredentialSpec = none → w.Network.isSome = true →
      specValidate (some s) = .error msgNetwork) ∧
    (2 ≤ w.LayerFolders.length → s.Hostname = "" → hasCPUShares w = false →
      hasCPUMaximum w = false → s.Root = none → hasStorage w = false →
      w.CredentialSpec = none → w.Network = none → s.Mounts ≠ [] →
      specValidate (some s) = .error msgMounts) ∧
    ([msgLayerFolders, msgHostname, msgCPUShares, msgCPUMaximum, msgRoot, msgStorage,
      msgCredentialSpec, msgNetwork, msgMounts].Pairwise (fun x y => x ≠ y)) ∧
    ("LayerFolders".toList <:+: msgLayerFolders.toList) ∧
    ("Hostname".toList <:+: msgHostname.toList) ∧
    ("CPU.Shares".toList <:+: msgCPUShares.toList) ∧
    ("CPU.Maximum".toList <:+: msgCPUMaximum.toList) ∧
    ("Root".toList <:+: msgRoot.toList) ∧
    ("Storage".toList <:+: msgStorage.toList) ∧
    ("CredentialSpec".toList <:+: msgCredentialSpec.toList) ∧
    ("Network".toList <:+: msgNetwork.toList) ∧
    ("Mounts".toList <:+: msgMounts.toList) := by
  refine ⟨?_, ?_, ?_, ?_, ?_, ?_, ?_, ?_, ?_, ?_,
    by decide, by decide, by decide, by decide, by decide,
    by decide, by decide, by decide, by decide, by decide⟩
  · constructor
    · intro h
      simp only [specValidate, hw] at h
      split_ifs at h with h1 h2 h3 h4 h5 h6 h7 h8 h9
      all_goals try simp at h
      refine ⟨by omega, ?_, ?_, ?_, ?_, ?_, ?_, ?_, ?_⟩
      · exact (string_length_eq_zero s.Hostname).mp (by omega)
      · simpa using h3
      · simpa using h4
      · simpa using h5
      · simpa using h6
      · simpa using h7
      · simpa using h8
      · simpa using h9
    · rintro ⟨h1, h2, h3, h4, h5, h6, h7, h8, h9⟩
      simp only [specValidate, hw]
      rw [if_neg (by omega), if_neg (by simp [h2]), if_neg (by simp [h3]),
        if_neg (by simp [h4]), if_neg (by simp [h5]), if_neg (by simp [h6]),
        if_neg (by simp [h7]), if_neg (by simp [h8]), if_neg (by simp [h9])]
  · intro h1
    simp only [specValidate, hw]
    rw [if_pos h1]
  · intro hl hn
    simp only [specValidate, hw]
    rw [if_neg (by omega), if_pos ((string_length_pos_iff s.Hostname).mpr hn)]
  · intro hl hn h3
    simp only [specValidate, hw]
    rw [if_neg (by omega), if_neg (by simp [hn]), if_pos h3]
  · intro hl hn h3 h4
    simp only [specValidate, hw]
    rw [if_neg (by omega), if_neg (by simp [hn]), if_neg (by simp [h3]), if_pos h4]
  · intro hl hn h3 h4 h5
    simp only [specValidate, hw]
    rw [if_neg (by omega), if_neg (by simp [hn]), if_neg (by simp [h3]),
      if_neg (by simp [h4]), if_pos h5]
  · intro hl hn h3 h4 h5 h6
    simp only [specValidate, hw]
    rw [if_neg (by omega), if_neg (by simp [hn]), if_neg (by simp [h3]),
      if_neg (by simp [h4]), if_neg (by simp [h5]), if_pos h6]
  · intro hl hn h3 h4 h5 h6 h7
    simp only [specValidate, hw]
    rw [if_neg (by omega), if_neg (by simp [hn]), if_neg (by simp [h3]),
      if_neg (by simp [h4]), if_neg (by simp [h5]), if_neg (by simp [h6]), if_pos h7]
  · intro hl hn h3 h4 h5 h6 h7 h8
    simp only [specValidate, hw]
    rw [if_neg (by omega), if_neg (by simp [hn]), if_neg (by simp [h3]),
      if_neg (by simp [h4]), if_neg (by simp [h5]), if_neg (by simp [h6]),
      if_neg (by simp [h7]), if_pos h8]
  · intro hl hn h3 h4 h5 h6 h7 h8 h9
    simp only [specValidate, hw]
    rw [if_neg (by omega), if_neg (by simp [hn]), if_neg (by simp [h3]),
      if_neg (by simp [h4]), if_neg (by simp [h5]), if_neg (by simp [h6]),
      if_neg (by simp [h7]), if_neg (by simp [h8]), if_pos (by simp [h9])]

/-- C2 witness: the characterisation applied at the concrete well-formed
spec `goodSpec`, whose validation accepts. -/
theorem spec_validation_characterisation_witness :
    specValidate (some goodSpec) = .ok () :=
  (spec_validation_characterisation goodSpec goodWindows rfl).1.mpr (by decide)

/-- C9 counterexample: the claim asserts the validation returns a result for
every input, including an absent `Spec` pointer or absent Windows section;
on both of those inputs the code dereferences a nil pointer (line 110 reads
`coi.Spec.Windows.LayerFolders` unguarded) and panics instead. -/
theorem validation_not_total_counterexample :
    ¬ returnsResult (specValidate none) ∧
    ¬ returnsResult (specValidate (some { Hostname := "", Root := none, Mounts := [], Windows := none, Linux := none })) :=
  ⟨fun h => h rfl, fun h => h rfl⟩

/-- C9 amended: the validation is pure and total on every spec whose
`Spec` pointer and Windows section are both present: it always returns a
result (acceptance or a rejection reason) and never panics. -/
theorem validation_returns_result_amended (s : Spec) (w : WindowsSpec)
    (hw : s.Windows = some w) :
    returnsResult (specValidate (some s)) := by
  simp only [returnsResult, specValidate, hw]
  split_ifs <;> simp

/-- C9 amended witness: the amended totality applied at `goodSpec`. -/
theorem validation_returns_result_amended_witness :
    returnsResult (specValidate (some goodSpec)) :=
  validation_returns_result_amended goodSpec goodWindows rfl

/-! ## Descriptor assembly (claim C6) -/

/-- C6: whenever `createWCOWv2UVM` succeeds, the assembled descriptor holds
exactly one SCSI attachment at controller slot 0 whose path is the sandbox
disk `<last layer folder>\sandbox.vhdx`, exactly one VSMB share with the
five sharing flags exposing `<resolved boot folder>\UtilityVM\Files`, the
fixed UEFI boot entry `\EFI\Microsoft\Boot\bootmgfw.efi` on disk 0, and the
bridge-connect guest-interface flag; and the recorded sandbox-disk copy
goes from `<resolved boot folder>\UtilityVM\SystemTemplate.vhdx` to
`<last layer folder>\sandbox.vhdx` with access granted to the VM id. -/
theorem descriptor_contents (numCPU : Nat) (fs : String → Stat) (coi : CreateOptions)
    (d : ComputeSystemV2) (eff : SandboxEffects)
    (h : createWCOWv2UVM numCPU fs coi = .ok (d, eff)) :
    ∃ s w uvmFolder,
      coi.Spec = some s ∧ s.Windows = some w ∧
      LocateWCOWUVMFolderFromLayerFolders fs w.LayerFolders = .ok uvmFolder ∧
      d.VirtualMachine = some
        { Chipset := some
            { UEFI := some
                { BootThis := some
                    { DevicePath := "\\EFI\\Microsoft\\Boot\\bootmgfw.efi",
                      DiskNumber := 0,
                      UefiDevice := "VMBFS" } } },
          ComputeTopology := some
            { Memory := some
                { Backing := "Virtual",
                  Startup := launchMemory w.Resources,
                  DirectFileMappingMB := 1024 },
              Processor := some { Count := launchProcessors numCPU w.Resources } },
          Devices := some
            { SCSI :=
                [("0", { Attachments :=
                    [("0", { Path := pathJoin (w.LayerFolders.getLastD "") "sandbox.vhdx",
                             AttachmentType := "VirtualDisk" })] })],
              VirtualSMBShares :=
                [{ Flags := [.readOnly, .pseudoOplocks, .takeBackupPrivilege,
                             .cacheIo, .shareRead],
                   Name := "os",
                   Path := pathJoin uvmFolder "UtilityVM\\Files" }],
              GuestInterface := some { ConnectToBridge := true } } } ∧
      eff.copiedFrom = pathJoin uvmFolder "UtilityVM\\SystemTemplate.vhdx" ∧
      eff.copiedTo = pathJoin (w.LayerFolders.getLastD "") "sandbox.vhdx" ∧
      eff.grantedTo = coi.actualId := by
  unfold createWCOWv2UVM at h
  rcases hs : coi.Spec with _ | s
  · rw [hs] at h
    simp only [specValidate] at h
    exact GoResult.noConfusion h
  · rw [hs] at h
    rcases hwin : s.Windows with _ | w
    · simp only [specValidate, hwin] at h
      exact GoResult.noConfusion h
    · rcases hv : specValidate (some s) with _ | e | u
      · simp only [hv] at h
        exact GoResult.noConfusion h
      · simp only [hv] at h
        exact GoResult.noConfusion h
      · simp only [hv, hwin] at h
        rcases hloc : LocateWCOWUVMFolderFromLayerFolders fs w.LayerFolders with e | uvm
        · simp only [hloc] at h
          exact GoResult.noConfusion h
        · simp only [hloc] at h
          injection h with hpair
          obtain ⟨hd, he⟩ := Prod.mk.inj hpair
          subst hd
          subst he
          exact ⟨s, w, uvm, rfl, hwin, hloc, rfl, rfl, rfl, rfl⟩

/-- The descriptor produced by `createWCOWv2UVM` on the concrete fixture
(`goodCoi` over the filesystem `fsW`): layer `B` carries the boot image and
`S` is the sandbox folder. -/
def c6Descriptor : ComputeSystemV2 where
  Owner := "own"
  SchemaVersion := "2.0"
  VirtualMachine := some
    { Chipset := some
        { UEFI := some
            { BootThis := some
                { DevicePath := "\\EFI\\Microsoft\\Boot\\bootmgfw.efi",
                  DiskNumber := 0,
                  UefiDevice := "VMBFS" } } },
      ComputeTopology := some
        { Memory := some { Backing := "Virtual", Startup := 1024, DirectFileMappingMB := 1024 },
          Processor := some { Count := 2 } },
      Devices := some
        { SCSI :=
            [("0", { Attachments :=
                [("0", { Path := "S\\sandbox.vhdx", AttachmentType := "VirtualDisk" })] })],
          VirtualSMBShares :=
            [{ Flags := [.readOnly, .pseudoOplocks, .takeBackupPrivilege,
                         .cacheIo, .shareRead],
               Name := "os",
               Path := "B\\UtilityVM\\Files" }],
          GuestInterface := some { ConnectToBridge := true } } }

/-- The filesystem side effects recorded on the same concrete fixture. -/
def c6Effects : SandboxEffects where
  createdFolder := some "S"
  copiedFrom := "B\\UtilityVM\\SystemTemplate.vhdx"
  copiedTo := "S\\sandbox.vhdx"
  grantedTo := "vm1"

/-- C6 witness: the descriptor-contents theorem applied to the concrete
fixture, on which `createWCOWv2UVM` succeeds with `c6Descriptor` and
`c6Effects`. -/
theorem descriptor_contents_witness :
    ∃ s w uvmFolder,
      goodCoi.Spec = some s ∧ s.Windows = some w ∧
      LocateWCOWUVMFolderFromLayerFolders fsW w.LayerFolders = .ok uvmFolder ∧
      c6Descriptor.VirtualMachine = some
        { Chipset := some
            { UEFI := some
                { BootThis := some
                    { DevicePath := "\\EFI\\Microsoft\\Boot\\bootmgfw.efi",
                      DiskNumber := 0,
                      UefiDevice := "VMBFS" } } },
          ComputeTopology := some
            { Memory := some
                { Backing := "Virtual",
                  Startup := launchMemory w.Resources,
                  DirectFileMappingMB := 1024 },
              Processor := some { Count := launchProcessors 4 w.Resources } },
          Devices := some
            { SCSI :=
                [("0", { Attachments :=
                    [("0", { Path := pathJoin (w.LayerFolders.getLastD "") "sandbox.vhdx",
                             AttachmentType := "VirtualDisk" })] })],
              VirtualSMBShares :=
                [{ Flags := [.readOnly, .pseudoOplocks, .takeBackupPrivilege,
                             .cacheIo, .shareRead],
                   Name := "os",
                   Path := pathJoin uvmFolder "UtilityVM\\Files" }],
              GuestInterface := some { ConnectToBridge := true } } } ∧
      c6Effects.copiedFrom = pathJoin uvmFolder "UtilityVM\\SystemTemplate.vhdx" ∧
      c6Effects.copiedTo = pathJoin (w.LayerFolders.getLastD "") "sandbox.vhdx" ∧
      c6Effects.grantedTo = goodCoi.actualId :=
  descriptor_contents 4 fsW goodCoi c6Descriptor c6Effects (by decide)

end WcowUvm
